import Mathlib

/-!
Verification of the arXiv retrieval-and-analysis pipeline.

This file gives a shallow embedding, in Lean 4, of the core of the
repository (module `arxiv_mcp`): the data model (`models.py`), the search
gateway and Atom/XML response parsing (`api.py`), the trend / citation /
related-paper analyzers (`analyzers.py`), and the multi-format exporter
(`exporters.py`).  Pure Python functions become Lean functions; the HTTP
transport is passed in as an explicit oracle mapping a request URL to
either an error message (modelling a raised transport exception together
with `raise_for_status`) or the response content; the external XML parser
(`xml.etree.ElementTree.fromstring`) is modelled by giving the response
content directly as `Except Unit Element` (parse failure versus parsed
element tree).  Python `str.replace` is embedded as an explicit
left-to-right, non-overlapping substitution on the character list of the
string, and Python slicing / splitting / stripping by the corresponding
list operations.
-/

/-- Model of Python `str.replace(old, new)` when `old` is a single
character: every occurrence of the character is replaced by `new`. -/
def pyCharSub (old : Char) (new : List Char) : List Char → List Char
  | [] => []
  | c :: rest => (if c = old then new else [c]) ++ pyCharSub old new rest

/-- Worker for `pyStrSub`: the fuel argument only serves to make the
recursion structural; one unit is spent per character consumed, so fuel
equal to the length of the list is always sufficient. -/
def pyStrSubGo (pat rep : List Char) : ℕ → List Char → List Char
  | _, [] => []
  | 0, l => l
  | fuel + 1, c :: rest =>
    if pat.isPrefixOf (c :: rest) && !pat.isEmpty then
      rep ++ pyStrSubGo pat rep fuel (rest.drop (pat.length - 1))
    else
      c :: pyStrSubGo pat rep fuel rest

/-- Model of Python `str.replace(pat, rep)` for a general pattern:
left-to-right scan, replacing non-overlapping occurrences of `pat`. -/
def pyStrSub (pat rep l : List Char) : List Char := pyStrSubGo pat rep l.length l

/-- Number of occurrences of a character in a string (used to state the
brace-balance property of the BibTeX exporter). -/
def countChar (s : String) (c : Char) : Nat := s.data.count c

/-- Model of Python `int(s)` restricted to all-digit strings: the code
only ever applies it to the four-character year prefix of an ISO date,
and on a non-digit prefix the surrounding `try` catches the raised
`ValueError` (modelled by `none`). -/
def pyInt? (s : List Char) : Option Nat :=
  if !s.isEmpty && s.all Char.isDigit then
    some (s.foldl (fun n c => 10 * n + (c.toNat - 48)) 0)
  else
    none

/-- Round-half-even integer rounding on rationals, the tie-breaking rule
used by Python `round`. -/
def roundHalfEven (q : ℚ) : ℤ :=
  let f : ℤ := ⌊q⌋
  if q - f < 1/2 then f
  else if q - f > 1/2 then f + 1
  else if f % 2 = 0 then f else f + 1

/-- Model of Python `round(x, 1)`: round to one decimal place with
banker de rounding of ties. -/
def pyRound1 (x : ℚ) : ℚ := (roundHalfEven (10 * x) : ℚ) / 10

/-- `models.Paper`: identity and metadata for one publication. -/
structure Paper where
  id : String
  title : String
  authors : List String
  abstract : String
  published : String
  categories : List String
  arxiv_url : String
  pdf_url : String
deriving DecidableEq

/-- `models.SearchResult`. -/
structure SearchResult where
  query : String
  total_results : Nat
  papers : List Paper
  error : Option String
deriving DecidableEq

/-- `models.CitationInfo`.  `estimated_citations` is a Python int
(modelled as ℤ) and `citations_per_year` a Python float produced by
`round(base / age_years, 1)` (modelled exactly as a rational). -/
structure CitationInfo where
  arxiv_id : String
  title : String
  estimated_citations : ℤ
  citations_per_year : ℚ
  h_index_contribution : ℤ
  note : String
deriving DecidableEq

/-- `models.ExportConfig`. -/
structure ExportConfig where
  format : String
  include_abstract : Bool
  include_categories : Bool
  include_urls : Bool
deriving DecidableEq

/-- The fixed popular-category list of `CitationAnalyzer`. -/
def popular_categories : List String := ["cs.AI", "cs.LG", "cs.CV", "cs.CL"]

/-- `CitationAnalyzer.estimate_citations`.  `current_year` stands for
`datetime.now().year` and `r1`, `r2` for the two draws
`random.randint(5, 25)` and `random.randint(0, 20)`; the claims under
verification are seed-independent, so the draws are plain parameters.
`int(base * 1.5)` on a nonnegative int is exactly `(3 * base) / 2` with
integer division. -/
def estimate_citations (paper : Paper) (current_year : ℕ) (r1 r2 : ℕ) : CitationInfo :=
  if paper.published = "" then
    { arxiv_id := paper.id, title := paper.title, estimated_citations := 0,
      citations_per_year := 0, h_index_contribution := 0,
      note := "Could not determine publication date" }
  else
    match pyInt? (paper.published.data.take 4) with
    | none =>
      { arxiv_id := paper.id, title := paper.title, estimated_citations := 0,
        citations_per_year := 0, h_index_contribution := 0,
        note := "Error estimating citations: invalid year prefix" }
    | some pub_year =>
      let age_years : ℤ := max 1 ((current_year : ℤ) - (pub_year : ℤ))
      let base0 : ℤ := max 0 (age_years * (r1 : ℤ) - (r2 : ℤ))
      let base : ℤ :=
        if paper.categories.any (fun cat => popular_categories.contains cat) then
          (3 * base0) / 2
        else base0
      { arxiv_id := paper.id, title := paper.title,
        estimated_citations := base,
        citations_per_year := pyRound1 ((base : ℚ) / (age_years : ℚ)),
        h_index_contribution := min base 10,
        note := "Citation data is estimated/simulated as arXiv doesn\x27t track citations directly" }

/-- The id normalization inside `ArxivAPI.get_paper`:
`arxiv_id.replace("arXiv:", "").replace("v1", "").replace("v2", "").replace("v3", "")`. -/
def clean_id (s : String) : String :=
  ⟨pyStrSub "v3".data [] (pyStrSub "v2".data [] (pyStrSub "v1".data []
    (pyStrSub "arXiv:".data [] s.data)))⟩

/-- The normalization described by the claim text of C5 (modelled from
the claim words, for comparison with `clean_id`): delete `arXiv:` only
when it is a leading prefix, then delete every literal occurrence of
`v1`, `v2`, `v3`. -/
def claim_normalize (s : String) : String :=
  let s1 : List Char :=
    if "arXiv:".data.isPrefixOf s.data then s.data.drop 6 else s.data
  ⟨pyStrSub "v3".data [] (pyStrSub "v2".data [] (pyStrSub "v1".data [] s1))⟩

/-- Model of an `xml.etree.ElementTree` element: fully-expanded tag of
the form `\x7buri\x7dlocal`, attribute association list, optional text
node, and child elements in document order. -/
inductive Element where
  | mk : String → List (String × String) → Option String → List Element → Element

/-- Tag of an element. -/
def Element.tag : Element → String
  | .mk t _ _ _ => t

/-- Attribute list of an element. -/
def Element.attrs : Element → List (String × String)
  | .mk _ a _ _ => a

/-- Text node of an element (`None` possible, as in ElementTree). -/
def Element.text : Element → Option String
  | .mk _ _ t _ => t

/-- Child elements of an element. -/
def Element.children : Element → List Element
  | .mk _ _ _ c => c

mutual
/-- All proper descendants of an element in document order: the elements
matched by an ElementTree `.//` path. -/
def Element.descendants : Element → List Element
  | .mk _ _ _ cs => Element.descendantsList cs

/-- Each listed element followed by its descendants, in document order. -/
def Element.descendantsList : List Element → List Element
  | [] => []
  | e :: es => (e :: Element.descendants e) ++ Element.descendantsList es
end

/-- `elem.find(path)` for a direct-child tag path: first matching child. -/
def Element.findChild (e : Element) (t : String) : Option Element :=
  e.children.find? (fun c => c.tag == t)

/-- `elem.findall(path)` for a direct-child tag path. -/
def Element.findAllChild (e : Element) (t : String) : List Element :=
  e.children.filter (fun c => c.tag == t)

/-- `elem.get(key)`: attribute lookup. -/
def Element.attr (e : Element) (k : String) : Option String :=
  (e.attrs.find? (fun kv => kv.1 == k)).map (fun kv => kv.2)

/-- Expanded Atom namespace marker, as ElementTree renders it. -/
def atomNs : String := "\x7bhttp://www.w3.org/2005/Atom\x7d"

def tagEntry : String := atomNs ++ "entry"
def tagTitle : String := atomNs ++ "title"
def tagAuthor : String := atomNs ++ "author"
def tagName : String := atomNs ++ "name"
def tagSummary : String := atomNs ++ "summary"
def tagId : String := atomNs ++ "id"
def tagPublished : String := atomNs ++ "published"
def tagCategory : String := atomNs ++ "category"
def tagLink : String := atomNs ++ "link"

/-- Python `str.strip()`: drop leading and trailing whitespace. -/
def pyStrip (s : String) : String :=
  ⟨((s.data.dropWhile Char.isWhitespace).reverse.dropWhile Char.isWhitespace).reverse⟩

/-- `text.strip().replace(chr(10), " ")`, the whitespace normalization
applied to titles and abstracts. -/
def normText (s : String) : String :=
  ⟨pyCharSub '\n' [' '] (pyStrip s).data⟩

/-- The dictionary built by `ArxivAPI._parse_paper_entry` (all eight
keys are always present). -/
structure PaperDict where
  id : String
  title : String
  authors : List String
  abstract : String
  published : String
  categories : List String
  arxiv_url : String
  pdf_url : String
deriving DecidableEq

/-- `Paper.from_dict`: every key is present in the dictionary produced
by the entry parser, so each `data.get(key, default)` returns the stored
value. -/
def Paper.from_dict (d : PaperDict) : Paper :=
  { id := d.id, title := d.title, authors := d.authors, abstract := d.abstract,
    published := d.published, categories := d.categories,
    arxiv_url := d.arxiv_url, pdf_url := d.pdf_url }

/-- The author-collection loop of `_parse_paper_entry`: an author entry
without a name child is skipped, while a name element whose text is
`None` raises (`None.strip()`), aborting the whole entry — modelled by
`none`. -/
def collectAuthors : List Element → Option (List String)
  | [] => some []
  | a :: rest =>
    match a.findChild tagName with
    | none => collectAuthors rest
    | some nameEl =>
      match nameEl.text with
      | none => none
      | some t => (collectAuthors rest).map (fun l => pyStrip t :: l)

/-- Worker for `splitSlash`, carrying the current segment reversed. -/
def splitSlashGo (acc : List Char) : List Char → List (List Char)
  | [] => [acc.reverse]
  | c :: rest =>
    if c = '/' then acc.reverse :: splitSlashGo [] rest
    else splitSlashGo (c :: acc) rest

/-- Python `s.split("/")` used for the id URL: split at every slash. -/
def splitSlash (l : List Char) : List (List Char) := splitSlashGo [] l

/-- Last path segment of the entry id URL:
`arxiv_url.split("/")[-1] if arxiv_url else ""`. -/
def lastSegment (s : String) : String :=
  if s = "" then "" else ⟨(splitSlash s.data).getLast!⟩

/-- `ArxivAPI._parse_paper_entry`.  The result is `none` exactly when
the Python code raises inside the entry (an element present with a
`None` text where the code calls `.strip()` or slices), which the caller
catches and logs, skipping the entry. -/
def parse_paper_entry (entry : Element) : Option PaperDict :=
  (match entry.findChild tagTitle with
   | none => some "Unknown Title"
   | some el => el.text.map normText).bind fun title =>
  (collectAuthors (entry.findAllChild tagAuthor)).bind fun authors =>
  (match entry.findChild tagSummary with
   | none => some ""
   | some el => el.text.map normText).bind fun abstract =>
  (match entry.findChild tagPublished with
   | none => some ""
   | some el => el.text.map (fun t : String => (⟨t.data.take 10⟩ : String))).bind fun published =>
  let arxiv_url := (match entry.findChild tagId with
   | none => ""
   | some el => el.text.getD "")
  let arxiv_id := lastSegment arxiv_url
  let categories := (entry.findAllChild tagCategory).filterMap (fun c : Element =>
    match c.attr "term" with
    | some t => if t = "" then none else some t
    | none => none)
  let pdf_url := (match (entry.findAllChild tagLink).find?
      (fun lnk : Element => lnk.attr "type" == some "application/pdf") with
    | some lnk => (lnk.attr "href").getD ""
    | none => "")
  some { id := arxiv_id, title := title, authors := authors, abstract := abstract,
         published := published, categories := categories,
         arxiv_url := arxiv_url, pdf_url := pdf_url }

/-- The per-entry loop body of `_parse_response` over a list of entry
elements: entries whose extraction raised are skipped. -/
def parse_entries (entries : List Element) : List Paper :=
  entries.filterMap (fun e => (parse_paper_entry e).map Paper.from_dict)

/-- `ArxivAPI._parse_response`: the input stands for the outcome of the
external XML parser on the response bytes (`Except.error` when
`ET.fromstring` raises). -/
def parse_response (content : Except Unit Element) : List Paper :=
  match content with
  | .error _ => []
  | .ok root => parse_entries ((root.descendants).filter (fun e => e.tag == tagEntry))

/-- UTF-8 bytes of one character, for percent-encoding. -/
def utf8Bytes (c : Char) : List ℕ :=
  let n := c.toNat
  if n < 128 then [n]
  else if n < 2048 then [192 + n / 64, 128 + n % 64]
  else if n < 65536 then [224 + n / 4096, 128 + (n / 64) % 64, 128 + n % 64]
  else [240 + n / 262144, 128 + (n / 4096) % 64, 128 + (n / 64) % 64, 128 + n % 64]

/-- Uppercase hexadecimal digit. -/
def hexDigitU (n : ℕ) : Char :=
  if n < 10 then Char.ofNat (48 + n) else Char.ofNat (55 + n)

/-- Model of `urllib.parse.quote_plus`: alphanumerics and `-_.~` kept,
space mapped to `+`, everything else percent-encoded bytewise. -/
def quote_plus (s : String) : String :=
  ⟨s.data.flatMap (fun c =>
    if c = ' ' then ['+']
    else if c.isAlphanum || c = '-' || c = '_' || c = '.' || c = '~' then [c]
    else (utf8Bytes c).flatMap (fun b => ['%', hexDigitU (b / 16), hexDigitU (b % 16)]))⟩

/-- The transport oracle: models `self.http_client.get(url)` followed by
`response.raise_for_status()` (an `Except.error` carries the message of
the raised exception, covering timeouts and non-2xx statuses) and the
external XML parse of `response.content`. -/
abbrev HttpGet := String → Except String (Except Unit Element)

def base_url : String := "https://export.arxiv.org/api/query"

/-- The request URL built by `ArxivAPI.search`. -/
def search_url (query : String) (max_results : ℕ) (sort_by : String) : String :=
  base_url ++ "?search_query=" ++ quote_plus query ++ "&start=0&max_results=" ++
    toString max_results ++ "&sortBy=" ++ sort_by ++ "&sortOrder=" ++
    (if sort_by ≠ "relevance" then "descending" else "ascending")

/-- `ArxivAPI.search`: one GET; a raised transport/status exception is
converted into a `SearchResult` carrying the exception message. -/
def ArxivAPI.search (query : String) (max_results : ℕ) (sort_by : String)
    (http : HttpGet) : SearchResult :=
  match http (search_url query max_results sort_by) with
  | .error e => { query := query, total_results := 0, papers := [], error := some e }
  | .ok content =>
    let papers := parse_response content
    { query := query, total_results := papers.length, papers := papers, error := none }

/-- The request URL built by `ArxivAPI.get_paper`. -/
def id_list_url (cid : String) : String := base_url ++ "?id_list=" ++ cid

/-- `ArxivAPI.get_paper`: normalize the id, query by id list, return the
first parsed paper, `none` on any failure or empty parse. -/
def ArxivAPI.get_paper (arxiv_id : String) (http : HttpGet) : Option Paper :=
  match http (id_list_url (clean_id arxiv_id)) with
  | .error _ => none
  | .ok content => (parse_response content).head?

/-- The result of one id-list request: the first parsed paper, or `none`
when the transport failed or the parse produced no papers (used to state
which request `get_paper` answers from). -/
def first_paper_of (r : Except String (Except Unit Element)) : Option Paper :=
  match r with
  | .error _ => none
  | .ok content => (parse_response content).head?

/-- One step of the Python dict update
`monthly_counts[k] = monthly_counts.get(k, 0) + 1`: the first binding of
the key is incremented in place, a missing key is appended. -/
def dictIncr (m : List (String × Nat)) (k : String) : List (String × Nat) :=
  match m with
  | [] => [(k, 1)]
  | (k0, v) :: rest => if k0 = k then (k0, v + 1) :: rest else (k0, v) :: dictIncr rest k

/-- The 7-character year-month key `paper.published[:7]`. -/
def monthKey (paper : Paper) : String := ⟨paper.published.data.take 7⟩

/-- Value stored for a key in a counts dictionary, zero when the key is
absent (verification helper for stating `dict.get(k, 0)`). -/
def alist_getD (m : List (String × Nat)) (k : String) : ℕ :=
  match m with
  | [] => 0
  | (k0, v) :: rest => if k0 = k then v else alist_getD rest k

/-- The accumulation loop of `TrendAnalyzer._analyze_publication_count`:
papers with an empty `published` field are skipped. -/
def build_monthly_counts (papers : List Paper) : List (String × Nat) :=
  papers.foldl (fun m paper => if paper.published = "" then m else dictIncr m (monthKey paper)) []

/-- `TrendAnalyzer._analyze_publication_count`: count per month key and
return the mapping sorted by key (`dict(sorted(monthly_counts.items()))`;
the keys are pairwise distinct so the pair ordering is the key
ordering). -/
def analyze_publication_count (papers : List Paper) : List (String × Nat) :=
  List.insertionSort (fun a b => a.1 ≤ b.1) (build_monthly_counts papers)

/-- The shared stop-word set of `analyzers.py`. -/
def stop_words : List String :=
  ["the", "a", "an", "and", "or", "but", "in", "on", "at",
   "to", "for", "of", "with", "by", "via", "using"]

/-- Python `str.lower()` (ASCII model). -/
def pyLower (s : String) : String := ⟨s.data.map Char.toLower⟩

/-- Worker for `pySplitWs`, carrying the current word reversed. -/
def splitWsGo (acc : List Char) : List Char → List (List Char)
  | [] => if acc.isEmpty then [] else [acc.reverse]
  | c :: rest =>
    if c.isWhitespace then
      (if acc.isEmpty then splitWsGo [] rest else acc.reverse :: splitWsGo [] rest)
    else splitWsGo (c :: acc) rest

/-- Python `str.split()` with no argument: split on whitespace runs,
producing no empty words. -/
def pySplitWs (s : String) : List String := (splitWsGo [] s.data).map (fun w => (⟨w⟩ : String))

/-- `paper.title.lower().split()` in `find_related_papers`. -/
def title_words (paper : Paper) : List String := pySplitWs (pyLower paper.title)

/-- The `key_words` list of `find_related_papers`: title words longer
than 3 characters, stop words excluded, first three kept. -/
def key_words (paper : Paper) : List String :=
  ((title_words paper).filter (fun w => decide (3 < w.length) && !stop_words.contains w)).take 3

/-- The `search_terms` list of `find_related_papers`: `cat:` clauses for
the first two categories, then quoted key words. -/
def related_search_terms (paper : Paper) : List String :=
  (paper.categories.take 2).map (fun cat => "cat:" ++ cat) ++
    (key_words paper).map (fun w => "\"" ++ w ++ "\"")

/-- The query string of `find_related_papers`:
`" OR ".join(search_terms) if search_terms else (categories[0] if categories else "cs.AI")`. -/
def related_query (paper : Paper) : String :=
  if related_search_terms paper ≠ [] then
    String.intercalate " OR " (related_search_terms paper)
  else
    match paper.categories with
    | cat :: _ => cat
    | [] => "cs.AI"

/-- `RelatedPaperFinder.find_related_papers`: search with five extra
results sorted by relevance, drop the seed paper by id, truncate. -/
def find_related_papers (paper : Paper) (max_results : ℕ) (http : HttpGet) : List Paper :=
  ((ArxivAPI.search (related_query paper) (max_results + 5) "relevance" http).papers.filter
      (fun p => p.id != paper.id)).take max_results

/-- Brace escaping of `_export_bibtex`:
`.replace(chr(123), backslash-brace).replace(chr(125), backslash-brace)`. -/
def escape_braces (s : String) : String :=
  ⟨pyCharSub '\x7d' ['\\', '\x7d'] (pyCharSub '\x7b' ['\\', '\x7b'] s.data)⟩

/-- The BibTeX entry key of `_export_bibtex`:
`paper.id.replace(".", "_").replace("/", "_")`. -/
def bibKey (s : String) : String := ⟨pyCharSub '/' ['_'] (pyCharSub '.' ['_'] s.data)⟩

/-- One `@article` entry of `_export_bibtex` (the redundant
`config.include_abstract and config.include_abstract` of the source is a
single toggle test). -/
def bibtex_entry (paper : Paper) (config : ExportConfig) : String :=
  let arxiv_id := bibKey paper.id
  let title := escape_braces paper.title
  let authors := String.intercalate " and " paper.authors
  let year : String := ⟨paper.published.data.take 4⟩
  let e1 := "@article\x7b" ++ arxiv_id ++ ",\n  title=\x7b" ++ title ++
    "\x7d,\n  author=\x7b" ++ authors ++
    "\x7d,\n  journal=\x7barXiv preprint arXiv:" ++ paper.id ++
    "\x7d,\n  year=\x7b" ++ year ++ "\x7d"
  let e2 := if config.include_urls then
      e1 ++ ",\n  url=\x7bhttps://export.arxiv.org/abs/" ++ paper.id ++ "\x7d"
    else e1
  let e3 := if config.include_abstract then
      e2 ++ ",\n  abstract=\x7b" ++ escape_braces paper.abstract ++ "\x7d"
    else e2
  let e4 := if config.include_categories && !paper.categories.isEmpty then
      e3 ++ ",\n  note=\x7bCategories: " ++ String.intercalate ", " paper.categories ++ "\x7d"
    else e3
  e4 ++ "\n\x7d"

/-- `PaperExporter._export_bibtex`. -/
def export_bibtex (papers : List Paper) (config : ExportConfig) : String :=
  String.intercalate "\n\n" (papers.map (fun paper => bibtex_entry paper config))

/-- The entry key as the claim words describe it (modelled from the
claim, for the refinement comparison): each `.` and `/` of the id
replaced by `_`, as a single character-wise pass. -/
def bibKeyClaim (s : String) : String :=
  ⟨s.data.map (fun c => if c = '.' ∨ c = '/' then '_' else c)⟩

/-- Brace escaping as the claim words describe it (modelled from the
claim): one pass mapping each brace to its backslash-escaped form. -/
def escapeBracesClaim (s : String) : String :=
  ⟨s.data.flatMap (fun c =>
    if c = '\x7b' then ['\\', '\x7b']
    else if c = '\x7d' then ['\\', '\x7d']
    else [c])⟩

/-- The BibTeX entry rebuilt with the claim-side key and escaping
functions, to be compared with `bibtex_entry`. -/
def bibtex_entry_claim (paper : Paper) (config : ExportConfig) : String :=
  let arxiv_id := bibKeyClaim paper.id
  let title := escapeBracesClaim paper.title
  let authors := String.intercalate " and " paper.authors
  let year : String := ⟨paper.published.data.take 4⟩
  let e1 := "@article\x7b" ++ arxiv_id ++ ",\n  title=\x7b" ++ title ++
    "\x7d,\n  author=\x7b" ++ authors ++
    "\x7d,\n  journal=\x7barXiv preprint arXiv:" ++ paper.id ++
    "\x7d,\n  year=\x7b" ++ year ++ "\x7d"
  let e2 := if config.include_urls then
      e1 ++ ",\n  url=\x7bhttps://export.arxiv.org/abs/" ++ paper.id ++ "\x7d"
    else e1
  let e3 := if config.include_abstract then
      e2 ++ ",\n  abstract=\x7b" ++ escapeBracesClaim paper.abstract ++ "\x7d"
    else e2
  let e4 := if config.include_categories && !paper.categories.isEmpty then
      e3 ++ ",\n  note=\x7bCategories: " ++ String.intercalate ", " paper.categories ++ "\x7d"
    else e3
  e4 ++ "\n\x7d"

/-- JSON values produced by the exporter (strings and string arrays are
the only value shapes a `Paper` dictionary contains, plus the object and
array nodes of the document). -/
inductive Json where
  | str : String → Json
  | arr : List Json → Json
  | obj : List (String × Json) → Json

/-- `Paper.to_dict` at the JSON level: insertion-ordered key/value
pairs. -/
def paper_to_dict (paper : Paper) : List (String × Json) :=
  [("id", .str paper.id), ("title", .str paper.title),
   ("authors", .arr (paper.authors.map .str)), ("abstract", .str paper.abstract),
   ("published", .str paper.published),
   ("categories", .arr (paper.categories.map .str)),
   ("arxiv_url", .str paper.arxiv_url), ("pdf_url", .str paper.pdf_url)]

/-- Python `dict.pop(k, None)`: remove the binding of `k`, keeping the
order of the remaining keys. -/
def dictPop (m : List (String × Json)) (k : String) : List (String × Json) :=
  m.filter (fun kv => kv.1 != k)

/-- One record of `_export_json` after the toggle-driven `pop` calls. -/
def json_record (paper : Paper) (config : ExportConfig) : List (String × Json) :=
  let d := paper_to_dict paper
  let d := if config.include_abstract then d else dictPop d "abstract"
  let d := if config.include_categories then d else dictPop d "categories"
  let d := if config.include_urls then d else dictPop (dictPop d "arxiv_url") "pdf_url"
  d

/-- Lowercase hexadecimal digit (as `json.dumps` renders escapes). -/
def hexDigitL (n : ℕ) : Char :=
  if n < 10 then Char.ofNat (48 + n) else Char.ofNat (87 + n)

/-- A `backslash-uXXXX` escape. -/
def uEsc (n : ℕ) : List Char :=
  ['\\', 'u', hexDigitL ((n / 4096) % 16), hexDigitL ((n / 256) % 16),
   hexDigitL ((n / 16) % 16), hexDigitL (n % 16)]

/-- Character escaping of `json.dumps` with the default
`ensure_ascii=True`. -/
def jsonEscapeChar (c : Char) : List Char :=
  if c = '"' then ['\\', '"']
  else if c = '\\' then ['\\', '\\']
  else if c = '\n' then ['\\', 'n']
  else if c = '\t' then ['\\', 't']
  else if c = '\r' then ['\\', 'r']
  else if c.toNat = 8 then ['\\', 'b']
  else if c.toNat = 12 then ['\\', 'f']
  else if c.toNat < 32 then uEsc c.toNat
  else if c.toNat < 128 then [c]
  else if c.toNat < 65536 then uEsc c.toNat
  else uEsc (55296 + (c.toNat - 65536) / 1024) ++ uEsc (56320 + (c.toNat - 65536) % 1024)

/-- A JSON string literal. -/
def json_quote (s : String) : String := "\"" ++ (⟨s.data.flatMap jsonEscapeChar⟩ : String) ++ "\""

/-- Indentation of `json.dumps(..., indent=2)`. -/
def jindent (n : ℕ) : String := ⟨List.replicate n ' '⟩

/-- `json.dumps(..., indent=2)` on the document tree. -/
def json_dumps : Json → ℕ → String
  | .str s, _ => json_quote s
  | .arr [], _ => "[]"
  | .arr (x :: xs), lvl =>
    "[\n" ++ String.intercalate ",\n"
      (((x :: xs).attach).map (fun y =>
        jindent (2 * (lvl + 1)) ++ json_dumps y.1 (lvl + 1))) ++
      "\n" ++ jindent (2 * lvl) ++ "]"
  | .obj [], _ => "\x7b\x7d"
  | .obj (kv :: kvs), lvl =>
    "\x7b\n" ++ String.intercalate ",\n"
      (((kv :: kvs).attach).map (fun y =>
        jindent (2 * (lvl + 1)) ++ json_quote y.1.1 ++ ": " ++ json_dumps y.1.2 (lvl + 1))) ++
      "\n" ++ jindent (2 * lvl) ++ "\x7d"
termination_by j _ => sizeOf j
decreasing_by
  · have h1 := List.sizeOf_lt_of_mem y.2
    simp only [Json.arr.sizeOf_spec]
    omega
  · have h1 := List.sizeOf_lt_of_mem y.2
    have h2 : sizeOf y.1.2 < sizeOf y.1 := by
      obtain ⟨⟨a, b⟩, hy⟩ := y
      simp only [Prod.mk.sizeOf_spec]
      omega
    simp only [Json.obj.sizeOf_spec]
    omega

/-- `PaperExporter._export_json`. -/
def export_json (papers : List Paper) (config : ExportConfig) : String :=
  json_dumps (.arr (papers.map (fun paper => Json.obj (json_record paper config)))) 0

/-- Minimal quoting of the Python `csv` default dialect: a field
containing the delimiter, the quote character, or a line-break character
is quoted, with embedded quotes doubled. -/
def csv_field (s : String) : String :=
  if s.data.any (fun c => c = ',' || c = '"' || c = '\n' || c = '\r') then
    "\"" ++ (⟨pyCharSub '"' ['"', '"'] s.data⟩ : String) ++ "\""
  else s

/-- One CSV line (the default line terminator of `csv.writer` is
carriage return followed by line feed). -/
def csv_line (fields : List String) : String :=
  String.intercalate "," (fields.map csv_field) ++ "\r\n"

/-- The toggle-driven CSV header of `_export_csv`. -/
def csv_fieldnames (config : ExportConfig) : List String :=
  ["id", "title", "authors", "published"] ++
    (if config.include_categories then ["categories"] else []) ++
    (if config.include_urls then ["arxiv_url", "pdf_url"] else []) ++
    (if config.include_abstract then ["abstract"] else [])

/-- The row values written for one paper, in header order. -/
def csv_row_values (paper : Paper) (config : ExportConfig) : List String :=
  [paper.id, paper.title, String.intercalate "; " paper.authors, paper.published] ++
    (if config.include_categories then [String.intercalate "; " paper.categories] else []) ++
    (if config.include_urls then [paper.arxiv_url, paper.pdf_url] else []) ++
    (if config.include_abstract then [paper.abstract] else [])

/-- `PaperExporter._export_csv`. -/
def export_csv (papers : List Paper) (config : ExportConfig) : String :=
  csv_line (csv_fieldnames config) ++
    String.join (papers.map (fun paper => csv_line (csv_row_values paper config)))

/-- One numbered Markdown section of `_export_markdown`. -/
def markdown_entry (i : ℕ) (paper : Paper) (config : ExportConfig) : String :=
  let s := "## " ++ toString i ++ ". " ++ paper.title ++ "\n\n" ++
    "**Authors:** " ++ String.intercalate ", " paper.authors ++ "  \n" ++
    "**arXiv ID:** [" ++ paper.id ++ "](https://exportarxiv.org/abs/" ++ paper.id ++ ")  \n" ++
    "**Published:** " ++ paper.published ++ "  \n"
  let s := if config.include_categories && !paper.categories.isEmpty then
      s ++ "**Categories:** " ++ String.intercalate ", " paper.categories ++ "  \n"
    else s
  let s := if config.include_urls then
      s ++ "**PDF:** [Download](https://export.arxiv.org/pdf/" ++ paper.id ++ ".pdf)  \n"
    else s
  let s := s ++ "\n"
  let s := if config.include_abstract then
      s ++ "**Abstract:**  \n" ++ paper.abstract ++ "\n\n"
    else s
  s ++ "---\n\n"

/-- `PaperExporter._export_markdown`. -/
def export_markdown (papers : List Paper) (config : ExportConfig) : String :=
  "# arXiv Papers Export\n\n" ++
    String.join ((List.enumFrom 1 papers).map (fun ip => markdown_entry ip.1 ip.2 config))

/-- `PaperExporter.export_papers`: dispatch on the format string; the
unsupported-format `ValueError` is the `Except.error` case. -/
def export_papers (papers : List Paper) (config : ExportConfig) : Except String String :=
  if config.format = "bibtex" then .ok (export_bibtex papers config)
  else if config.format = "json" then .ok (export_json papers config)
  else if config.format = "csv" then .ok (export_csv papers config)
  else if config.format = "markdown" then .ok (export_markdown papers config)
  else .error ("Unsupported format: " ++ config.format)

/-- Concrete fixture: a dated paper with a popular category. -/
def fixPaperCite : Paper :=
  { id := "2001.00001", title := "T", authors := [], abstract := "",
    published := "2020-01-01", categories := ["cs.AI"], arxiv_url := "", pdf_url := "" }

/-- Concrete fixture: export configuration with every toggle on. -/
def cfgAll : ExportConfig :=
  { format := "bibtex", include_abstract := true, include_categories := true,
    include_urls := true }

/-- Concrete fixture: a paper whose title is a single opening brace. -/
def fixPaperBrace : Paper :=
  { id := "x", title := "\x7b", authors := [], abstract := "", published := "",
    categories := [], arxiv_url := "", pdf_url := "" }

/-- Concrete fixture: a brace-free paper for the BibTeX witness. -/
def fixPaperBib : Paper :=
  { id := "2301.00001", title := "Deep Title", authors := ["Ada One", "Bob Two"],
    abstract := "An abstract", published := "2023-05-01",
    categories := ["cs.AI", "cs.LG"],
    arxiv_url := "http://arxiv.org/abs/2301.00001", pdf_url := "http://arxiv.org/pdf/2301.00001" }

/-- Concrete fixture: a transport that always fails with a timeout. -/
def errHttp : HttpGet := fun _ => .error "timeout"

/-- Concrete fixture: a feed with no entries. -/
def emptyFeed : Element := .mk (atomNs ++ "feed") [] none []

/-- Concrete fixture: a feed with one entry that has no sub-elements. -/
def oneEntryFeed : Element := .mk (atomNs ++ "feed") [] none [.mk tagEntry [] none []]

/-- The paper parsed from an entry with no sub-elements: every field
defaults, the title to the sentinel. -/
def unknownPaper : Paper :=
  { id := "", title := "Unknown Title", authors := [], abstract := "", published := "",
    categories := [], arxiv_url := "", pdf_url := "" }

/-- Transport for the C5 counterexample: only the id list query for the
string that the code actually produces returns a paper. -/
def cexHttpC5 : HttpGet :=
  fun url => if url = id_list_url "xy" then .ok (.ok oneEntryFeed) else .ok (.ok emptyFeed)

/-- Transport for the C5 witness. -/
def witHttpC5 : HttpGet :=
  fun url => if url = id_list_url "2301.00001v4" then .ok (.ok oneEntryFeed) else .ok (.ok emptyFeed)

/-- Entry fixture: title and id present, title text needs trimming. -/
def entryGoodC6 : Element :=
  .mk tagEntry [] none
    [.mk tagTitle [] (some " A Title ") [],
     .mk tagId [] (some "http://arxiv.org/abs/1234.5") []]

/-- Entry fixture whose extraction raises: the title element exists but
its text is `None`, so `.strip()` raises `AttributeError`. -/
def entryBadC6 : Element := .mk tagEntry [] none [.mk tagTitle [] none []]

/-- Entry fixture with no title element but a summary. -/
def entryNoTitleC6 : Element := .mk tagEntry [] none [.mk tagSummary [] (some "S") []]

/-- Feed fixture mixing a good entry, a raising entry, and a
title-less entry. -/
def mixedFeedC6 : Element :=
  .mk (atomNs ++ "feed") [] none [entryGoodC6, entryBadC6, entryNoTitleC6]

/-- Paper fixtures for the publication-count example: two papers from
January 2024 and one from February 2024. -/
def paperJanA : Paper :=
  { id := "a", title := "", authors := [], abstract := "", published := "2024-01-15",
    categories := [], arxiv_url := "", pdf_url := "" }

def paperJanB : Paper :=
  { id := "b", title := "", authors := [], abstract := "", published := "2024-01-20",
    categories := [], arxiv_url := "", pdf_url := "" }

def paperFeb : Paper :=
  { id := "c", title := "", authors := [], abstract := "", published := "2024-02-01",
    categories := [], arxiv_url := "", pdf_url := "" }

/-- Seed paper fixture for the related-paper claims. -/
def seedPaper : Paper :=
  { id := "A1", title := "Deep Networks Overview", authors := [], abstract := "",
    published := "2023-01-01", categories := ["cs.AI"],
    arxiv_url := "", pdf_url := "" }

/-- Feed fixture for the related-paper witness: two entries, the first
of which parses to the seed paper id. -/
def relFeed : Element :=
  .mk (atomNs ++ "feed") [] none
    [.mk tagEntry [] none [.mk tagId [] (some "http://arxiv.org/abs/A1") []],
     .mk tagEntry [] none [.mk tagId [] (some "http://arxiv.org/abs/B2") []]]

/-- Transport for the related-paper witness. -/
def relHttp : HttpGet := fun _ => .ok (.ok relFeed)

/-- Seed paper with no categories and no qualifying title words: every
title word is short or a stop word, so the fallback query is reached. -/
def blankPaper : Paper :=
  { id := "z", title := "a of by the", authors := [], abstract := "", published := "",
    categories := [], arxiv_url := "", pdf_url := "" }

/-- C1: `ArxivAPI.search` always returns a `SearchResult` (it is a total
function of the transport outcome, so nothing propagates to its caller);
whenever the transport raises — timeout, non-2xx status via
`raise_for_status`, or any other exception, carried as the
`Except.error` message — the result stores that message in `error`
(present, in the sense of not-`None`), with `papers = []` and
`total_results = 0`; and in every returned result a present `error`
implies `papers` is empty and `total_results` is zero. -/
theorem C1_search_error_contract (query : String) (max_results : ℕ) (sort_by : String)
    (http : HttpGet) :
    (∀ msg, http (search_url query max_results sort_by) = .error msg →
      ArxivAPI.search query max_results sort_by http =
        { query := query, total_results := 0, papers := [], error := some msg }) ∧
    ((ArxivAPI.search query max_results sort_by http).error.isSome →
      (ArxivAPI.search query max_results sort_by http).papers = [] ∧
      (ArxivAPI.search query max_results sort_by http).total_results = 0) := by
  constructor
  · intro msg h
    simp [ArxivAPI.search, h]
  · intro h
    cases hc : http (search_url query max_results sort_by) with
    | error e => simp [ArxivAPI.search, hc]
    | ok content => simp [ArxivAPI.search, hc] at h

/-- Witness for C1 at a concrete query and a timing-out transport. -/
theorem C1_search_error_witness :
    ArxivAPI.search "q" 10 "relevance" errHttp =
      { query := "q", total_results := 0, papers := [], error := some "timeout" } :=
  (C1_search_error_contract "q" 10 "relevance" errHttp).1 "timeout" rfl

/-- C2: whenever the published field starts with a parseable four-digit
year, `estimate_citations` returns a nonnegative estimate, and the
identities `citations_per_year = round(estimated_citations / ageYears, 1)`
with `ageYears = max 1 (currentYear - pubYear)` and
`h_index_contribution = min estimated_citations 10` hold for every
outcome of the two random draws, popular-category multiplier included. -/
theorem C2_citation_identities (paper : Paper) (current_year r1 r2 : ℕ) (pub_year : ℕ)
    (hy : pyInt? (paper.published.data.take 4) = some pub_year) :
    0 ≤ (estimate_citations paper current_year r1 r2).estimated_citations ∧
    (estimate_citations paper current_year r1 r2).citations_per_year =
      pyRound1 (((estimate_citations paper current_year r1 r2).estimated_citations : ℚ) /
        ((max 1 ((current_year : ℤ) - (pub_year : ℤ)) : ℤ) : ℚ)) ∧
    (estimate_citations paper current_year r1 r2).h_index_contribution =
      min ((estimate_citations paper current_year r1 r2).estimated_citations) 10 := by
  have hne : paper.published ≠ "" := by
    intro he
    have hnone : pyInt? (("" : String).data.take 4) = (none : Option ℕ) := rfl
    rw [he, hnone] at hy
    exact Option.noConfusion hy
  unfold estimate_citations
  rw [if_neg hne, hy]
  refine ⟨?_, rfl, rfl⟩
  dsimp only
  split
  · exact Int.ediv_nonneg (mul_nonneg (by norm_num) (le_max_left 0 _)) (by norm_num)
  · exact le_max_left 0 _

/-- Witness for C2 at a 2020 paper with a popular category. -/
theorem C2_citation_witness :
    0 ≤ (estimate_citations fixPaperCite 2026 7 3).estimated_citations ∧
    (estimate_citations fixPaperCite 2026 7 3).citations_per_year =
      pyRound1 (((estimate_citations fixPaperCite 2026 7 3).estimated_citations : ℚ) /
        ((max 1 ((2026 : ℤ) - (2020 : ℤ)) : ℤ) : ℚ)) ∧
    (estimate_citations fixPaperCite 2026 7 3).h_index_contribution =
      min ((estimate_citations fixPaperCite 2026 7 3).estimated_citations) 10 :=
  C2_citation_identities fixPaperCite 2026 7 3 2020 (by decide)

/-- C8: `find_related_papers` issues the search with `max_results + 5`
and sort `relevance` (third conjunct shows the exact request), and the
returned list never contains the seed paper id and never exceeds
`max_results` papers; it is a total function of the transport outcome,
so a transport failure yields the empty list via the empty `papers` of
the degraded `SearchResult`. -/
theorem C8_find_related_contract (paper : Paper) (max_results : ℕ) (http : HttpGet) :
    (find_related_papers paper max_results http).length ≤ max_results ∧
    (∀ p ∈ find_related_papers paper max_results http, p.id ≠ paper.id) ∧
    find_related_papers paper max_results http =
      ((ArxivAPI.search (related_query paper) (max_results + 5) "relevance" http).papers.filter
        (fun p => p.id != paper.id)).take max_results := by
  refine ⟨?_, ?_, rfl⟩
  · unfold find_related_papers
    rw [List.length_take]
    exact inf_le_left
  · intro p hp
    unfold find_related_papers at hp
    have h1 := List.mem_of_mem_take hp
    have h2 := List.of_mem_filter h1
    simpa using h2

/-- Witness for C8 at a concrete seed paper and transport. -/
theorem C8_find_related_witness :
    (find_related_papers seedPaper 1 relHttp).length ≤ 1 ∧
    ∀ p ∈ find_related_papers seedPaper 1 relHttp, p.id ≠ seedPaper.id :=
  ⟨(C8_find_related_contract seedPaper 1 relHttp).1,
   (C8_find_related_contract seedPaper 1 relHttp).2.1⟩

/-- C9: `export_papers` raises (`Except.error`, the `ValueError` of the
source) exactly when the format is not one of the four supported names,
returns a string for each supported format, and the raised message is
the unsupported-format message. -/
theorem C9_export_format_contract (papers : List Paper) (config : ExportConfig) :
    ((∃ msg, export_papers papers config = .error msg) ↔
      config.format ∉ (["bibtex", "json", "csv", "markdown"] : List String)) ∧
    (config.format ∈ (["bibtex", "json", "csv", "markdown"] : List String) →
      ∃ out, export_papers papers config = .ok out) ∧
    (∀ msg, export_papers papers config = .error msg →
      msg = "Unsupported format: " ++ config.format) := by
  unfold export_papers
  split_ifs with h1 h2 h3 h4 <;> simp_all

/-- Witness for C9 at an unsupported format and at a supported one. -/
theorem C9_export_format_witness :
    ((∃ msg, export_papers [] { cfgAll with format := "xml" } = .error msg) ↔
      ("xml" : String) ∉ (["bibtex", "json", "csv", "markdown"] : List String)) ∧
    (∃ out, export_papers [] cfgAll = .ok out) :=
  ⟨(C9_export_format_contract [] { cfgAll with format := "xml" }).1,
   (C9_export_format_contract [] cfgAll).2.1 (by decide)⟩

/-- C10: in `find_related_papers`, a seed paper with at least one
category always produces at least one `cat:` clause, so the query is the
`" OR "`-join of the clauses and the fallback expression is dead there;
the fallback is reached only with no categories and no qualifying title
words, and then the query is the bare string `cs.AI` with no `cat:`
prefix. -/
theorem C10_related_query_fallback (paper : Paper) :
    (paper.categories ≠ [] →
      related_search_terms paper ≠ [] ∧
      related_query paper = String.intercalate " OR " (related_search_terms paper)) ∧
    (related_search_terms paper = [] →
      paper.categories = [] ∧ key_words paper = [] ∧ related_query paper = "cs.AI") := by
  have hsplit : related_search_terms paper = [] →
      paper.categories = [] ∧ key_words paper = [] := by
    intro h
    unfold related_search_terms at h
    rcases List.append_eq_nil.mp h with ⟨ha, hb⟩
    constructor
    · have h2 := List.map_eq_nil_iff.mp ha
      rcases List.take_eq_nil_iff.mp h2 with h3 | h3
      · simp at h3
      · exact h3
    · exact List.map_eq_nil_iff.mp hb
  constructor
  · intro hc
    have hne : related_search_terms paper ≠ [] := fun h => hc (hsplit h).1
    refine ⟨hne, ?_⟩
    unfold related_query
    rw [if_pos hne]
  · intro h
    obtain ⟨hcat, hkw⟩ := hsplit h
    refine ⟨hcat, hkw, ?_⟩
    unfold related_query
    rw [if_neg (fun hne => hne h), hcat]

/-- Witness for C10: a categorized seed paper joins clauses, a paper
with no categories and no qualifying words falls back to `cs.AI`. -/
theorem C10_related_query_witness :
    (related_search_terms seedPaper ≠ [] ∧
      related_query seedPaper = String.intercalate " OR " (related_search_terms seedPaper)) ∧
    (blankPaper.categories = [] ∧ key_words blankPaper = [] ∧
      related_query blankPaper = "cs.AI") :=
  ⟨(C10_related_query_fallback seedPaper).1 (by decide),
   (C10_related_query_fallback blankPaper).2 (by decide)⟩

/-- If the pattern occurs nowhere in the list, the worker substitution
leaves the list unchanged, for any fuel. -/
theorem pyStrSubGo_of_no_occurrence (pat rep : List Char) :
    ∀ (l : List Char) (fuel : ℕ), ¬ (pat <:+: l) → pyStrSubGo pat rep fuel l = l := by
  intro l
  induction l with
  | nil => intro fuel h; cases fuel <;> rfl
  | cons c rest ih =>
    intro fuel h
    cases fuel with
    | zero => rfl
    | succ f =>
      have hpre : pat.isPrefixOf (c :: rest) = false := by
        by_contra hcon
        rw [Bool.not_eq_false] at hcon
        obtain ⟨t, ht⟩ := List.isPrefixOf_iff_prefix.mp hcon
        exact h ⟨[], t, by simpa using ht⟩
      have hrest : ¬ (pat <:+: rest) := by
        intro hinf
        obtain ⟨s, t, hst⟩ := hinf
        exact h ⟨c :: s, t, by rw [← hst]; simp⟩
      simp only [pyStrSubGo, hpre, Bool.false_and, Bool.false_eq_true, if_false]
      rw [ih f hrest]

/-- If the pattern occurs nowhere in the list, Python replace leaves the
list unchanged. -/
theorem pyStrSub_of_no_occurrence (pat rep l : List Char)
    (h : ¬ (pat <:+: l)) : pyStrSub pat rep l = l :=
  pyStrSubGo_of_no_occurrence pat rep l l.length h

/-- An id containing none of `arXiv:`, `v1`, `v2`, `v3` as a substring
is left untouched by the `get_paper` normalization. -/
theorem clean_id_of_no_occurrence (s : String)
    (h1 : ¬ ("arXiv:".data <:+: s.data)) (h2 : ¬ ("v1".data <:+: s.data))
    (h3 : ¬ ("v2".data <:+: s.data)) (h4 : ¬ ("v3".data <:+: s.data)) :
    clean_id s = s := by
  unfold clean_id
  rw [pyStrSub_of_no_occurrence _ _ _ h1, pyStrSub_of_no_occurrence _ _ _ h2,
      pyStrSub_of_no_occurrence _ _ _ h3, pyStrSub_of_no_occurrence _ _ _ h4]

/-- C5 counterexample: the claim describes the normalization as deleting
the prefix `arXiv:`, but the code deletes every occurrence of that
substring.  On the id `xarXiv:y` the code queries with `xy` and returns
the paper that the transport serves for `xy`, while the query described
by the claim (`xarXiv:y`, unchanged since `arXiv:` is not a prefix and
no `v1`/`v2`/`v3` occurs) returns no paper. -/
theorem C5_get_paper_counterexample :
    claim_normalize "xarXiv:y" = "xarXiv:y" ∧
    clean_id "xarXiv:y" = "xy" ∧
    ArxivAPI.get_paper "xarXiv:y" cexHttpC5 = some unknownPaper ∧
    first_paper_of (cexHttpC5 (id_list_url (claim_normalize "xarXiv:y"))) = none :=
  ⟨by decide, by decide, by decide, by decide⟩

/-- C5 (amended): `get_paper` normalizes the id by deleting every
literal occurrence of `arXiv:` (not only a leading prefix) and every
literal occurrence of `v1`, `v2`, `v3` (left to right, non-overlapping),
queries the service by id list with the normalized id, and answers with
the first parsed paper of that response, absent on failure or emptiness;
an id containing none of the four substrings — in particular any id with
`v4` or a later version suffix and no earlier one — is not normalized at
all. -/
theorem C5_get_paper_amended (arxiv_id : String) (http : HttpGet) :
    ArxivAPI.get_paper arxiv_id http = first_paper_of (http (id_list_url (clean_id arxiv_id))) ∧
    ((¬ ("arXiv:".data <:+: arxiv_id.data)) → (¬ ("v1".data <:+: arxiv_id.data)) →
     (¬ ("v2".data <:+: arxiv_id.data)) → (¬ ("v3".data <:+: arxiv_id.data)) →
      clean_id arxiv_id = arxiv_id ∧
      ArxivAPI.get_paper arxiv_id http = first_paper_of (http (id_list_url arxiv_id))) := by
  have hfirst : ArxivAPI.get_paper arxiv_id http =
      first_paper_of (http (id_list_url (clean_id arxiv_id))) := rfl
  refine ⟨hfirst, fun h1 h2 h3 h4 => ?_⟩
  have hid := clean_id_of_no_occurrence arxiv_id h1 h2 h3 h4
  rw [hfirst, hid]
  exact ⟨rfl, rfl⟩

/-- Witness for C5 at a `v4` id, which the normalization leaves
unchanged. -/
theorem C5_get_paper_witness :
    clean_id "2301.00001v4" = "2301.00001v4" ∧
    ArxivAPI.get_paper "2301.00001v4" witHttpC5 =
      first_paper_of (witHttpC5 (id_list_url "2301.00001v4")) :=
  (C5_get_paper_amended "2301.00001v4" witHttpC5).2
    (by decide) (by decide) (by decide) (by decide)

/-- C6: the response parser is total (it returns a list of papers for
every input, raising nothing): a document on which the external XML
parser fails yields the empty list; an entry whose extraction raises
(modelled by `parse_paper_entry` returning `none`) is skipped while all
remaining entries are still parsed; and an entry with no title element
that parses yields the sentinel title `Unknown Title`. -/
theorem C6_parse_leniency :
    (∀ e : Unit, parse_response (.error e) = []) ∧
    (∀ root : Element, parse_response (.ok root) =
      parse_entries ((root.descendants).filter (fun e => e.tag == tagEntry))) ∧
    (∀ (pre post : List Element) (bad : Element), parse_paper_entry bad = none →
      parse_entries (pre ++ bad :: post) = parse_entries pre ++ parse_entries post) ∧
    (∀ (entry : Element) (d : PaperDict), entry.findChild tagTitle = none →
      parse_paper_entry entry = some d → d.title = "Unknown Title") := by
  refine ⟨fun _ => rfl, fun _ => rfl, ?_, ?_⟩
  · intro pre post bad hbad
    unfold parse_entries
    rw [List.filterMap_append]
    simp [hbad]
  · intro entry d hfind hparse
    unfold parse_paper_entry at hparse
    simp only [Option.bind_eq_some] at hparse
    obtain ⟨title, htitle, hparse⟩ := hparse
    rw [hfind] at htitle
    simp only [Option.some.injEq] at htitle
    obtain ⟨authors, ha, hparse⟩ := hparse
    obtain ⟨abstract, hb, hparse⟩ := hparse
    obtain ⟨published, hc, hparse⟩ := hparse
    simp only [Option.some.injEq] at hparse
    rw [← hparse, ← htitle]

/-- Witness for C6: a failing document parses to nothing, a raising
entry is skipped around its neighbours, and a title-less entry yields
the sentinel title. -/
theorem C6_parse_witness :
    parse_response (.error ()) = [] ∧
    parse_entries ([entryGoodC6] ++ entryBadC6 :: [entryNoTitleC6]) =
      parse_entries [entryGoodC6] ++ parse_entries [entryNoTitleC6] ∧
    (∃ d, parse_paper_entry entryNoTitleC6 = some d ∧ d.title = "Unknown Title") := by
  refine ⟨C6_parse_leniency.1 (), C6_parse_leniency.2.2.1 [entryGoodC6] [entryNoTitleC6] entryBadC6 rfl, ?_⟩
  have ht := C6_parse_leniency.2.2.2 entryNoTitleC6
    { id := "", title := "Unknown Title", authors := [], abstract := "S", published := "",
      categories := [], arxiv_url := "", pdf_url := "" } rfl rfl
  exact ⟨_, rfl, ht⟩

/-- Incrementing a key adds one to its stored count and leaves every
other key unchanged. -/
theorem alist_getD_dictIncr (m : List (String × Nat)) (k k' : String) :
    alist_getD (dictIncr m k) k' = alist_getD m k' + (if k' = k then 1 else 0) := by
  induction m with
  | nil =>
    by_cases h : k' = k
    · subst h; simp [dictIncr, alist_getD]
    · have h2 : ¬ (k = k') := fun he => h he.symm
      simp [dictIncr, alist_getD, h, h2]
  | cons kv rest ih =>
    obtain ⟨k0, v⟩ := kv
    by_cases h0 : k0 = k
    · subst h0
      by_cases h1 : k0 = k'
      · subst h1; simp [dictIncr, alist_getD]
      · have h2 : ¬ (k' = k0) := fun he => h1 he.symm
        simp [dictIncr, alist_getD, h1, h2]
    · by_cases h1 : k0 = k'
      · subst h1
        have h2 : ¬ (k0 = k) := h0
        simp [dictIncr, alist_getD, h2]
      · simp [dictIncr, alist_getD, h0, h1, ih]

/-- The keys of the incremented dictionary are among the new key and the
old keys. -/
theorem dictIncr_keys_sub (m : List (String × Nat)) (k : String) :
    ∀ k', k' ∈ (dictIncr m k).map Prod.fst → k' = k ∨ k' ∈ m.map Prod.fst := by
  induction m with
  | nil => intro k' h; simp [dictIncr] at h; exact Or.inl h
  | cons kv rest ih =>
    obtain ⟨k0, v⟩ := kv
    intro k' h
    by_cases h0 : k0 = k
    · subst h0
      simp [dictIncr] at h
      rcases h with h | h
      · exact Or.inr (by simp [h])
      · exact Or.inr (by simp [h])
    · simp [dictIncr, h0] at h
      rcases h with h | h
      · exact Or.inr (by simp [h])
      · rcases ih k' (by simpa using h) with h2 | h2
        · exact Or.inl h2
        · exact Or.inr (by simp [h2])

/-- Incrementing preserves distinctness of the keys. -/
theorem dictIncr_keys_nodup (m : List (String × Nat)) (k : String)
    (h : (m.map Prod.fst).Nodup) : ((dictIncr m k).map Prod.fst).Nodup := by
  induction m with
  | nil => simp [dictIncr]
  | cons kv rest ih =>
    obtain ⟨k0, v⟩ := kv
    simp only [List.map_cons, List.nodup_cons] at h
    by_cases h0 : k0 = k
    · subst h0
      simpa [dictIncr] using h
    · simp only [dictIncr, h0, if_false, List.map_cons, List.nodup_cons]
      refine ⟨?_, ih h.2⟩
      intro hmem
      rcases dictIncr_keys_sub rest k k0 hmem with h2 | h2
      · exact h0 h2
      · exact h.1 h2

/-- Every stored count stays positive under increment. -/
theorem dictIncr_pos (m : List (String × Nat)) (k : String)
    (h : ∀ kv ∈ m, 0 < kv.2) : ∀ kv ∈ dictIncr m k, 0 < kv.2 := by
  induction m with
  | nil =>
    intro kv hkv
    simp [dictIncr] at hkv
    subst hkv
    exact Nat.one_pos
  | cons kv0 rest ih =>
    obtain ⟨k0, v⟩ := kv0
    intro kv hkv
    by_cases h0 : k0 = k
    · subst h0
      simp [dictIncr] at hkv
      rcases hkv with h2 | h2
      · subst h2
        exact Nat.succ_pos v
      · exact h kv (List.mem_cons_of_mem _ h2)
    · simp only [dictIncr, h0, if_false, List.mem_cons] at hkv
      rcases hkv with h2 | h2
      · subst h2; exact h (k0, v) (List.mem_cons_self _ _)
      · exact ih (fun kv2 hkv2 => h kv2 (List.mem_cons_of_mem _ hkv2)) kv h2

/-- With distinct keys and positive counts, membership in the
dictionary is exactly described by the stored count. -/
theorem alist_mem_iff (m : List (String × Nat))
    (hnd : (m.map Prod.fst).Nodup) (hpos : ∀ kv ∈ m, 0 < kv.2) (k : String) (n : ℕ) :
    (k, n) ∈ m ↔ (alist_getD m k = n ∧ 0 < n) := by
  induction m with
  | nil =>
    simp only [List.not_mem_nil, alist_getD, false_iff]
    intro h2
    omega
  | cons kv rest ih =>
    obtain ⟨k0, v⟩ := kv
    simp only [List.map_cons, List.nodup_cons] at hnd
    have hrest := ih hnd.2 (fun kv2 hkv2 => hpos kv2 (List.mem_cons_of_mem _ hkv2))
    by_cases h0 : k0 = k
    · subst h0
      have hvpos : 0 < v := hpos (k0, v) (List.mem_cons_self _ _)
      simp only [List.mem_cons, alist_getD, if_pos rfl, Prod.mk.injEq, true_and]
      constructor
      · intro h2
        rcases h2 with h2 | h2
        · exact ⟨h2.symm, h2 ▸ hvpos⟩
        · exact absurd (List.mem_map_of_mem Prod.fst h2) hnd.1
      · intro h2
        exact Or.inl h2.1.symm
    · have hne : ¬ (k0 = k) := h0
      simp only [List.mem_cons, alist_getD, if_neg hne, Prod.mk.injEq]
      constructor
      · intro h2
        rcases h2 with h2 | h2
        · exact absurd h2.1.symm h0
        · exact hrest.mp h2
      · intro h2
        exact Or.inr (hrest.mpr h2)

/-- The count stored for a key after the publication-count loop is the
initial count plus the number of dated papers with that month key. -/
theorem build_counts_getD (papers : List Paper) :
    ∀ (m : List (String × Nat)) (k : String),
      alist_getD (papers.foldl (fun m paper =>
        if paper.published = "" then m else dictIncr m (monthKey paper)) m) k =
      alist_getD m k +
        (papers.filter (fun p => p.published != "" && (monthKey p == k))).length := by
  induction papers with
  | nil => intro m k; simp
  | cons p rest ih =>
    intro m k
    by_cases hp : p.published = ""
    · simp [List.foldl_cons, hp, List.filter_cons, ih]
    · simp only [List.foldl_cons, if_neg hp]
      rw [ih, alist_getD_dictIncr]
      by_cases hk : monthKey p = k
      · simp [List.filter_cons, hp, hk]
        omega
      · simp [List.filter_cons, hp, hk, Ne.symm hk]

/-- The publication-count loop preserves key distinctness and count
positivity. -/
theorem build_counts_nodup_pos (papers : List Paper) :
    ∀ (m : List (String × Nat)), (m.map Prod.fst).Nodup → (∀ kv ∈ m, 0 < kv.2) →
      (((papers.foldl (fun m paper =>
          if paper.published = "" then m else dictIncr m (monthKey paper)) m).map
            Prod.fst).Nodup ∧
        ∀ kv ∈ papers.foldl (fun m paper =>
          if paper.published = "" then m else dictIncr m (monthKey paper)) m, 0 < kv.2) := by
  induction papers with
  | nil => intro m h1 h2; exact ⟨h1, h2⟩
  | cons p rest ih =>
    intro m h1 h2
    by_cases hp : p.published = ""
    · simpa [List.foldl_cons, hp] using ih m h1 h2
    · simp only [List.foldl_cons, if_neg hp]
      exact ih _ (dictIncr_keys_nodup _ _ h1) (dictIncr_pos _ _ h2)

/-- C7: the publication-count analysis groups dated papers by the
7-character year-month prefix of `published`, maps each key to the
number of papers sharing it, and lists the key/count pairs sorted by
key; on two January 2024 papers and one February 2024 paper it returns
exactly the claimed mapping. -/
theorem C7_publication_count (papers : List Paper) :
    List.Sorted (fun a b : String × ℕ => a.1 ≤ b.1) (analyze_publication_count papers) ∧
    (∀ k n, (k, n) ∈ analyze_publication_count papers ↔
      (n = (papers.filter (fun p => p.published != "" && (monthKey p == k))).length ∧
        0 < n)) ∧
    analyze_publication_count [paperFeb, paperJanA, paperJanB] =
      [("2024-01", 2), ("2024-02", 1)] := by
  refine ⟨?_, ?_, ?_⟩
  · haveI h1 : IsTotal (String × ℕ) (fun a b => a.1 ≤ b.1) := ⟨fun a b => le_total a.1 b.1⟩
    haveI h2 : IsTrans (String × ℕ) (fun a b => a.1 ≤ b.1) :=
      ⟨fun a b c hab hbc => le_trans hab hbc⟩
    exact List.sorted_insertionSort _ _
  · intro k n
    unfold analyze_publication_count
    rw [List.Perm.mem_iff (List.perm_insertionSort _ _)]
    unfold build_monthly_counts
    obtain ⟨hnd, hpos⟩ := build_counts_nodup_pos papers [] (by simp) (by simp)
    rw [alist_mem_iff _ hnd hpos, build_counts_getD papers [] k]
    simp only [alist_getD]
    omega
  · simp +decide [analyze_publication_count, build_monthly_counts, dictIncr, monthKey,
      List.insertionSort, List.orderedInsert]

/-- C4: the JSON export of N papers contains exactly N records, and for
every field not excluded by the toggles the value stored in the record
equals the corresponding `Paper` field.  Parsing the exported string
back is modelled at the level of the JSON document tree handed to the
serializer (`json_dumps`): the external `json` library round-trip
(`dumps` then `loads`) is taken as the identity on that tree, so the
parsed records are the `json_record` association lists. -/
theorem C4_json_round_trip (papers : List Paper) (config : ExportConfig) :
    export_json papers config =
      json_dumps (.arr (papers.map (fun p => Json.obj (json_record p config)))) 0 ∧
    (papers.map (fun p => json_record p config)).length = papers.length ∧
    List.Forall₂ (fun (r : List (String × Json)) (p : Paper) =>
      (r.find? (fun kv => kv.1 == "id")).map Prod.snd = some (.str p.id) ∧
      (r.find? (fun kv => kv.1 == "title")).map Prod.snd = some (.str p.title) ∧
      (r.find? (fun kv => kv.1 == "authors")).map Prod.snd =
        some (.arr (p.authors.map .str)) ∧
      (r.find? (fun kv => kv.1 == "published")).map Prod.snd = some (.str p.published) ∧
      (config.include_abstract = true →
        (r.find? (fun kv => kv.1 == "abstract")).map Prod.snd = some (.str p.abstract)) ∧
      (config.include_categories = true →
        (r.find? (fun kv => kv.1 == "categories")).map Prod.snd =
          some (.arr (p.categories.map .str))) ∧
      (config.include_urls = true →
        (r.find? (fun kv => kv.1 == "arxiv_url")).map Prod.snd = some (.str p.arxiv_url) ∧
        (r.find? (fun kv => kv.1 == "pdf_url")).map Prod.snd = some (.str p.pdf_url)))
      (papers.map (fun p => json_record p config)) papers := by
  refine ⟨rfl, by simp, ?_⟩
  have hfield : ∀ p : Paper,
      ((json_record p config).find? (fun kv => kv.1 == "id")).map Prod.snd =
        some (.str p.id) ∧
      ((json_record p config).find? (fun kv => kv.1 == "title")).map Prod.snd =
        some (.str p.title) ∧
      ((json_record p config).find? (fun kv => kv.1 == "authors")).map Prod.snd =
        some (.arr (p.authors.map .str)) ∧
      ((json_record p config).find? (fun kv => kv.1 == "published")).map Prod.snd =
        some (.str p.published) ∧
      (config.include_abstract = true →
        ((json_record p config).find? (fun kv => kv.1 == "abstract")).map Prod.snd =
          some (.str p.abstract)) ∧
      (config.include_categories = true →
        ((json_record p config).find? (fun kv => kv.1 == "categories")).map Prod.snd =
          some (.arr (p.categories.map .str))) ∧
      (config.include_urls = true →
        ((json_record p config).find? (fun kv => kv.1 == "arxiv_url")).map Prod.snd =
          some (.str p.arxiv_url) ∧
        ((json_record p config).find? (fun kv => kv.1 == "pdf_url")).map Prod.snd =
          some (.str p.pdf_url)) := by
    intro p
    obtain ⟨fmt, ab, cats, urls⟩ := config
    cases ab <;> cases cats <;> cases urls <;>
      refine ⟨rfl, rfl, rfl, rfl, ?_, ?_, ?_⟩ <;>
        (intro h; first | exact ⟨rfl, rfl⟩ | rfl | simp at h)
  induction papers with
  | nil => exact List.Forall₂.nil
  | cons p rest ih => exact List.Forall₂.cons (hfield p) ih

/-- Witness for C4 at a concrete paper and a toggle switched off. -/
theorem C4_json_witness :
    ([fixPaperBib].map (fun p => json_record p
      { format := "json", include_abstract := false, include_categories := true,
        include_urls := true })).length = [fixPaperBib].length :=
  (C4_json_round_trip [fixPaperBib]
    { format := "json", include_abstract := false, include_categories := true,
      include_urls := true }).2.1

/-- Single-character substitution distributes over append. -/
theorem pyCharSub_append (old : Char) (new a b : List Char) :
    pyCharSub old new (a ++ b) = pyCharSub old new a ++ pyCharSub old new b := by
  induction a with
  | nil => rfl
  | cons c rest ih => simp [pyCharSub, ih]

/-- The two sequential key replacements equal the single character-wise
pass described by the claim. -/
theorem key_sub_eq_map (l : List Char) :
    pyCharSub '/' ['_'] (pyCharSub '.' ['_'] l) =
    l.map (fun c => if c = '.' ∨ c = '/' then '_' else c) := by
  induction l with
  | nil => rfl
  | cons c rest ih =>
    by_cases h1 : c = '.'
    · subst h1
      simp [pyCharSub, pyCharSub_append, ih]
    · by_cases h2 : c = '/'
      · subst h2
        simp [pyCharSub, pyCharSub_append, ih]
      · simp [pyCharSub, pyCharSub_append, ih, h1, h2]

/-- The two sequential brace replacements equal the single-pass escaping
described by the claim. -/
theorem escape_sub_eq_flatMap (l : List Char) :
    pyCharSub '\x7d' ['\\', '\x7d'] (pyCharSub '\x7b' ['\\', '\x7b'] l) =
    l.flatMap (fun c =>
      if c = '\x7b' then ['\\', '\x7b'] else if c = '\x7d' then ['\\', '\x7d'] else [c]) := by
  induction l with
  | nil => rfl
  | cons c rest ih =>
    by_cases h1 : c = '\x7b'
    · subst h1
      simp [pyCharSub, pyCharSub_append, ih]
    · by_cases h2 : c = '\x7d'
      · subst h2
        simp [pyCharSub, pyCharSub_append, ih]
      · simp [pyCharSub, pyCharSub_append, ih, h1, h2]

/-- The code key function equals the claim key function. -/
theorem bibKey_eq_claim (s : String) : bibKey s = bibKeyClaim s :=
  congrArg String.mk (key_sub_eq_map s.data)

/-- The code escaping equals the claim escaping. -/
theorem escape_braces_eq_claim (s : String) : escape_braces s = escapeBracesClaim s :=
  congrArg String.mk (escape_sub_eq_flatMap s.data)

/-- Every BibTeX entry built by the code equals the entry rebuilt with
the claim-side key and escaping. -/
theorem bibtex_entry_eq_claim (paper : Paper) (config : ExportConfig) :
    bibtex_entry paper config = bibtex_entry_claim paper config := by
  unfold bibtex_entry bibtex_entry_claim
  rw [bibKey_eq_claim, escape_braces_eq_claim, escape_braces_eq_claim]

/-- Character counts add over string concatenation. -/
theorem countChar_append (a b : String) (c : Char) :
    countChar (a ++ b) c = countChar a c + countChar b c := by
  show (a.data ++ b.data).count c = a.data.count c + b.data.count c
  exact List.count_append c a.data b.data

/-- Brace escaping preserves the number of braces of either kind (the
escape `backslash-brace` still contains the brace character). -/
theorem count_escape_list (l : List Char) (c : Char) (hc : c = '\x7b' ∨ c = '\x7d') :
    (l.flatMap (fun d =>
      if d = '\x7b' then ['\\', '\x7b'] else if d = '\x7d' then ['\\', '\x7d'] else [d])).count c
      = l.count c := by
  induction l with
  | nil => rfl
  | cons d rest ih =>
    rw [List.flatMap_cons, List.count_append, ih, List.count_cons]
    by_cases h1 : d = '\x7b'
    · subst h1
      rcases hc with h | h <;> subst h <;> simp <;> omega
    · by_cases h2 : d = '\x7d'
      · subst h2
        rcases hc with h | h <;> subst h <;> simp <;> omega
      · rcases hc with h | h <;> subst h <;> simp [List.count_cons, h1, h2]

theorem countChar_escape_open (s : String) :
    countChar (escapeBracesClaim s) '\x7b' = countChar s '\x7b' :=
  count_escape_list s.data '\x7b' (Or.inl rfl)

theorem countChar_escape_close (s : String) :
    countChar (escapeBracesClaim s) '\x7d' = countChar s '\x7d' :=
  count_escape_list s.data '\x7d' (Or.inr rfl)

/-- The key replacement touches only dots and slashes, so it preserves
brace counts. -/
theorem count_key_list (l : List Char) (c : Char) (hc : c = '\x7b' ∨ c = '\x7d') :
    (l.map (fun d => if d = '.' ∨ d = '/' then '_' else d)).count c = l.count c := by
  induction l with
  | nil => rfl
  | cons d rest ih =>
    rw [List.map_cons, List.count_cons, List.count_cons, ih]
    by_cases h1 : d = '.' ∨ d = '/'
    · rcases hc with h | h <;> subst h <;>
        rcases h1 with h1 | h1 <;> subst h1 <;> simp
    · simp [h1]

theorem countChar_key_open (s : String) :
    countChar (bibKeyClaim s) '\x7b' = countChar s '\x7b' :=
  count_key_list s.data '\x7b' (Or.inl rfl)

theorem countChar_key_close (s : String) :
    countChar (bibKeyClaim s) '\x7d' = countChar s '\x7d' :=
  count_key_list s.data '\x7d' (Or.inr rfl)

/-- C3 counterexample: on a paper whose title is a single opening brace,
the escaped title still contains an unmatched brace character, so the
single entry of the export has eight opening braces but only seven
closing ones — the balance part of the claim is false as stated. -/
theorem C3_bibtex_counterexample :
    countChar (export_bibtex [fixPaperBrace] cfgAll) '\x7b' ≠
    countChar (export_bibtex [fixPaperBrace] cfgAll) '\x7d' := by decide

/-- C3 (amended): for every paper of the export and any toggles, the
entry key is the paper id with every `.` and `/` replaced by `_`, and
every brace of the title and abstract is escaped to its
backslash-escaped form (first two conjuncts, via the equality with the
claim-side entry); the entry has equal counts of `\x7b` and `\x7d`
characters provided the id, title, abstract, joined authors, year
prefix, and joined categories each contain as many opening as closing
braces — in particular for brace-free papers.  Without that proviso the
balance fails, because the escape `backslash-brace` still contains the
brace character (see the counterexample). -/
theorem C3_bibtex_amended (papers : List Paper) (config : ExportConfig) (paper : Paper)
    (hmem : paper ∈ papers)
    (h1 : countChar paper.id '\x7b' = countChar paper.id '\x7d')
    (h2 : countChar paper.title '\x7b' = countChar paper.title '\x7d')
    (h3 : countChar paper.abstract '\x7b' = countChar paper.abstract '\x7d')
    (h4 : countChar (String.intercalate " and " paper.authors) '\x7b' =
          countChar (String.intercalate " and " paper.authors) '\x7d')
    (h5 : countChar (⟨paper.published.data.take 4⟩ : String) '\x7b' =
          countChar (⟨paper.published.data.take 4⟩ : String) '\x7d')
    (h6 : countChar (String.intercalate ", " paper.categories) '\x7b' =
          countChar (String.intercalate ", " paper.categories) '\x7d') :
    export_bibtex papers config =
      String.intercalate "\n\n" (papers.map (fun q => bibtex_entry q config)) ∧
    bibtex_entry paper config = bibtex_entry_claim paper config ∧
    countChar (bibtex_entry paper config) '\x7b' =
      countChar (bibtex_entry paper config) '\x7d' := by
  refine ⟨rfl, bibtex_entry_eq_claim paper config, ?_⟩
  rw [bibtex_entry_eq_claim paper config]
  have cA1 : countChar "@article\x7b" '\x7b' = 1 := by decide
  have cA2 : countChar "@article\x7b" '\x7d' = 0 := by decide
  have cT1 : countChar ",\n  title=\x7b" '\x7b' = 1 := by decide
  have cT2 : countChar ",\n  title=\x7b" '\x7d' = 0 := by decide
  have cU1 : countChar "\x7d,\n  author=\x7b" '\x7b' = 1 := by decide
  have cU2 : countChar "\x7d,\n  author=\x7b" '\x7d' = 1 := by decide
  have cJ1 : countChar "\x7d,\n  journal=\x7barXiv preprint arXiv:" '\x7b' = 1 := by decide
  have cJ2 : countChar "\x7d,\n  journal=\x7barXiv preprint arXiv:" '\x7d' = 1 := by decide
  have cY1 : countChar "\x7d,\n  year=\x7b" '\x7b' = 1 := by decide
  have cY2 : countChar "\x7d,\n  year=\x7b" '\x7d' = 1 := by decide
  have cC1 : countChar "\x7d" '\x7b' = 0 := by decide
  have cC2 : countChar "\x7d" '\x7d' = 1 := by decide
  have cR1 : countChar ",\n  url=\x7bhttps://export.arxiv.org/abs/" '\x7b' = 1 := by decide
  have cR2 : countChar ",\n  url=\x7bhttps://export.arxiv.org/abs/" '\x7d' = 0 := by decide
  have cB1 : countChar ",\n  abstract=\x7b" '\x7b' = 1 := by decide
  have cB2 : countChar ",\n  abstract=\x7b" '\x7d' = 0 := by decide
  have cN1 : countChar ",\n  note=\x7bCategories: " '\x7b' = 1 := by decide
  have cN2 : countChar ",\n  note=\x7bCategories: " '\x7d' = 0 := by decide
  have cF1 : countChar "\n\x7d" '\x7b' = 0 := by decide
  have cF2 : countChar "\n\x7d" '\x7d' = 1 := by decide
  obtain ⟨fmt, ab, cats, urls⟩ := config
  simp only [bibtex_entry_claim]
  cases ab <;> cases urls <;>
    by_cases hcat : (cats && !paper.categories.isEmpty) = true <;>
      simp only [hcat, Bool.false_eq_true, reduceIte, if_true, if_false] <;>
      simp only [countChar_append, countChar_escape_open, countChar_escape_close,
        countChar_key_open, countChar_key_close, cA1, cA2, cT1, cT2, cU1, cU2, cJ1, cJ2,
        cY1, cY2, cC1, cC2, cR1, cR2, cB1, cB2, cN1, cN2, cF1, cF2] <;>
      omega

/-- Witness for C3 at a concrete brace-free paper with all toggles on. -/
theorem C3_bibtex_witness :
    countChar (bibtex_entry fixPaperBib cfgAll) '\x7b' =
    countChar (bibtex_entry fixPaperBib cfgAll) '\x7d' :=
  (C3_bibtex_amended [fixPaperBib] cfgAll fixPaperBib (by decide) (by decide) (by decide)
    (by decide) (by decide) (by decide) (by decide)).2.2
